import Mathlib

/-!
Verification of the Mercury Challenge warning-submission notebook
(`doc/Warning Submission Using Python.ipynb`).

The notebook's code cells are straight-line Python: they bind a handful of
string and number literals, build a submission dictionary, issue one HTTP
POST through the Requests library, and pretty-print the parsed JSON reply.
This file embeds those constructions shallowly:

* Python dictionaries become insertion-ordered association lists of
  key/value pairs over a small JSON value type `JValue`;
* the two calls to `uuid4().hex` become explicit string parameters
  (`hex0`, `hex1`), since each call returns an arbitrary hex token;
* the variables `userid` and `secret_token` are likewise generalized to
  parameters where a claim quantifies over them, with the notebook's
  literal values kept as the constants of the same names;
* the one effectful suffix of the script (`pprint(submission)`,
  `requests.post(...)`, `pprint(result.json())`) becomes a trace of
  events over an explicit `HttpRequest` record.
-/

/-- JSON values as the notebook manipulates them: strings, numbers
(rationals, standing for the decimal literals in the source), `null`,
arrays, and objects as insertion-ordered association lists. -/
inductive JValue where
  | str : String → JValue
  | num : Rat → JValue
  | nul : JValue
  | arr : List JValue → JValue
  | obj : List (String × JValue) → JValue

/-- Python dictionary assignment `d[k] = v`: if the key is present its value
is replaced in place (the key keeps its position), otherwise the pair is
appended at the end, matching the insertion-order semantics of `dict`. -/
def dictInsert (d : List (String × JValue)) (k : String) (v : JValue) :
    List (String × JValue) :=
  if d.any (fun p => p.1 == k) then
    d.map (fun p => if p.1 == k then (k, v) else p)
  else
    d ++ [(k, v)]

/-- `secret_token = "mysecretkey"` from the setup cell. -/
def secret_token : String := "mysecretkey"

/-- `userid = "testuser"` from the setup cell. -/
def userid : String := "testuser"

/-- The fixed submission URL bound to `url` in the setup cell. -/
def url : String :=
  "https://87g554i96c.execute-api.us-east-1.amazonaws.com/Production/warning/intake"

/-- The value of the `x-api-key` header: the Python format template with the
participant id, a colon, and the token substituted in order. -/
def apiKeyValue (userid secret_token : String) : String :=
  userid ++ ":" ++ secret_token

/-- The `headers` dictionary of the setup cell: one explicit entry binding
`x-api-key`, parameterized over the two variables it reads. -/
def headers (userid secret_token : String) : List (String × String) :=
  [("x-api-key", apiKeyValue userid secret_token)]

/-- `country = "Saudi Arabia"`. -/
def country : String := "Saudi Arabia"

/-- `event_type = "Military Activity"`. -/
def event_type : String := "Military Activity"

/-- `subtype = "Conflict"`. -/
def subtype : String := "Conflict"

/-- `warn_id_0`: the participant id with a `uuid4().hex` token appended by
the two-placeholder format template. The random hex token is the explicit
parameter `hex0`. -/
def warn_id_0 (userid hex0 : String) : String := userid ++ hex0

/-- `event_date_0 = "2019-08-22"`. -/
def event_date_0 : String := "2019-08-22"

/-- `actor_0 = "Royal Saudi Military"`. -/
def actor_0 : String := "Royal Saudi Military"

/-- `lat_0 = 26.5208`. -/
def lat_0 : Rat := 26.5208

/-- `lon_0 = 50.0245`. -/
def lon_0 : Rat := 50.0245

/-- `city_0 = "Al Qaţīf"`. -/
def city_0 : String := "Al Qaţīf"

/-- `state_0 = "Eastern Province"`. -/
def state_0 : String := "Eastern Province"

/-- The first warning dictionary `warn_content_0`, fields in the source's
insertion order. -/
def warn_content_0 (userid hex0 : String) : List (String × JValue) :=
  [("Actor", JValue.str actor_0),
   ("City", JValue.str city_0),
   ("State", JValue.str state_0),
   ("Country", JValue.str country),
   ("Latitude", JValue.num lat_0),
   ("Longitude", JValue.num lon_0),
   ("Event_Date", JValue.str event_date_0),
   ("Event_Type", JValue.str event_type),
   ("Event_Subtype", JValue.str subtype),
   ("Warning_ID", JValue.str (warn_id_0 userid hex0))]

/-- `warn_id_1`: the participant id with the second `uuid4().hex` token
appended. -/
def warn_id_1 (userid hex1 : String) : String := userid ++ hex1

/-- `event_date_1 = "2019-08-24"`. -/
def event_date_1 : String := "2019-08-24"

/-- `actor_1 = "Royal Saudi Military"`. -/
def actor_1 : String := "Royal Saudi Military"

/-- `lat_1 = 26.5936`. -/
def lat_1 : Rat := 26.5936

/-- `lon_1 = 49.9875`. -/
def lon_1 : Rat := 49.9875

/-- `city_1 = "Al ‘Awāmīyah"`. -/
def city_1 : String := "Al ‘Awāmīyah"

/-- `state_1 = "Eastern Province"`. -/
def state_1 : String := "Eastern Province"

/-- The second warning dictionary `warn_content_1`, fields in the source's
insertion order. -/
def warn_content_1 (userid hex1 : String) : List (String × JValue) :=
  [("Actor", JValue.str actor_1),
   ("City", JValue.str city_1),
   ("State", JValue.str state_1),
   ("Country", JValue.str country),
   ("Latitude", JValue.num lat_1),
   ("Longitude", JValue.num lon_1),
   ("Event_Date", JValue.str event_date_1),
   ("Event_Type", JValue.str event_type),
   ("Event_Subtype", JValue.str subtype),
   ("Warning_ID", JValue.str (warn_id_1 userid hex1))]

/-- The initial submission dictionary literal: `participant_id` bound to the
participant id and `payload` bound to the empty list. -/
def submission_init (userid : String) : List (String × JValue) :=
  [("participant_id", JValue.str userid),
   ("payload", JValue.arr [])]

/-- The final value of `submission` after the assignment
`submission["payload"] = [warn_content_0, warn_content_1]`. -/
def submission (userid hex0 hex1 : String) : List (String × JValue) :=
  dictInsert (submission_init userid) "payload"
    (JValue.arr [JValue.obj (warn_content_0 userid hex0),
                 JValue.obj (warn_content_1 userid hex1)])

/-- An HTTP request as assembled by the client library: method, target URL,
header list, and JSON body. -/
structure HttpRequest where
  method : String
  url : String
  headerList : List (String × String)
  body : JValue

/-- Models `requests.post(url, headers=headers, json=submission)`: the
Requests library issues a POST to the given URL, serializes the `json`
argument as the request body, and, because the `json` keyword is used and
the caller's headers do not set one, adds the `Content-Type:
application/json` header to the supplied header dictionary. -/
def requestsPost (u : String) (hs : List (String × String)) (j : JValue) :
    HttpRequest :=
  ⟨"POST", u, hs ++ [("Content-Type", "application/json")], j⟩

/-- The one request the script issues: a POST of the submission to the fixed
URL with the notebook's headers. -/
def scriptRequest (userid secret_token hex0 hex1 : String) : HttpRequest :=
  requestsPost url (headers userid secret_token)
    (JValue.obj (submission userid hex0 hex1))

/-- Observable events of the script: issuing an HTTP POST, or printing a
JSON value. -/
inductive Event where
  | post : HttpRequest → Event
  | print : JValue → Event

/-- Whether an event is an HTTP POST. -/
def isPostEvent : Event → Bool
  | Event.post _ => true
  | Event.print _ => false

/-- The effectful statements of the script in source order:
`pprint(submission)`, then `result = requests.post(url, headers=headers,
json=submission)`, then `pprint(result.json())`. The parameter `response`
stands for the parsed JSON reply `result.json()` returned by the server. -/
def scriptTrace (userid secret_token hex0 hex1 : String) (response : JValue) :
    List Event :=
  [Event.print (JValue.obj (submission userid hex0 hex1)),
   Event.post (scriptRequest userid secret_token hex0 hex1),
   Event.print response]

/-- The list of warning records bound to `"payload"` in a submission
dictionary (empty if the key is absent or not bound to an array). -/
def payloadOf (sub : List (String × JValue)) : List JValue :=
  match List.lookup "payload" sub with
  | some (JValue.arr ws) => ws
  | _ => []

/-- The fields of a JSON object (empty for non-objects). -/
def fieldsOf : JValue → List (String × JValue)
  | JValue.obj fs => fs
  | _ => []

/-- Whether a JSON value is a scalar (string, number, or null). -/
def isScalar : JValue → Bool
  | JValue.str _ => true
  | JValue.num _ => true
  | JValue.nul => true
  | _ => false

/-- Whether a JSON value is a flat (non-nested) object: an object all of
whose field values are scalars. -/
def isFlatObj : JValue → Bool
  | JValue.obj fs => fs.all (fun p => isScalar p.2)
  | _ => false

/-- Whether an object value carries a field with the given key. -/
def hasKey (j : JValue) (k : String) : Bool :=
  match j with
  | JValue.obj fs => fs.any (fun p => p.1 == k)
  | _ => false

/-- The field names every warning record in the notebook's payload carries:
an actor, the location fields, the event date, the event type and subtype,
and the generated identifier. -/
def requiredWarnKeys : List String :=
  ["Actor", "City", "State", "Country", "Latitude", "Longitude",
   "Event_Date", "Event_Type", "Event_Subtype", "Warning_ID"]

/-- Boolean string order on the underlying character lists (lexicographic by
code point), the order in which `pprint` displays dictionary keys. -/
def strLtB (a b : String) : Bool := decide (a.data < b.data)

/-- Insert a field into a key-sorted field list. -/
def insertField (p : String × JValue) :
    List (String × JValue) → List (String × JValue)
  | [] => [p]
  | q :: qs => if strLtB p.1 q.1 then p :: q :: qs else q :: insertField p qs

/-- Sort a field list by key (insertion sort). -/
def sortFields : List (String × JValue) → List (String × JValue)
  | [] => []
  | p :: ps => insertField p (sortFields ps)

/-- How `pprint` displays a submission dictionary: dictionary keys are shown
in sorted order, at the top level and inside each warning record of the
`payload` array. (The submission's nesting is exactly two levels deep, so
this covers every dictionary it contains.) -/
def pprintView (fields : List (String × JValue)) : List (String × JValue) :=
  sortFields (fields.map (fun p =>
    match p.2 with
    | JValue.arr ws =>
        (p.1, JValue.arr (ws.map (fun w =>
          match w with
          | JValue.obj fs => JValue.obj (sortFields fs)
          | x => x)))
    | _ => p))

/-- The hex component of the first `Warning_ID` shown in the notebook's
printed output. -/
def sample_hex_0 : String := "150f4133679d4448aaa2174c945534bd"

/-- The hex component of the second `Warning_ID` shown in the notebook's
printed output. -/
def sample_hex_1 : String := "c392c27b6e3b4983925feeaa6c90dd68"

/-- The structure of the notebook's printed `pprint(submission)` output,
transcribed key for key in the printed (sorted) order, with the two
`Warning_ID` strings as parameters: they are the only parts of the printed
output that are not literals of the source. -/
def printedShape (wid0 wid1 : String) : List (String × JValue) :=
  [("participant_id", JValue.str "testuser"),
   ("payload", JValue.arr
     [JValue.obj
       [("Actor", JValue.str "Royal Saudi Military"),
        ("City", JValue.str "Al Qaţīf"),
        ("Country", JValue.str "Saudi Arabia"),
        ("Event_Date", JValue.str "2019-08-22"),
        ("Event_Subtype", JValue.str "Conflict"),
        ("Event_Type", JValue.str "Military Activity"),
        ("Latitude", JValue.num 26.5208),
        ("Longitude", JValue.num 50.0245),
        ("State", JValue.str "Eastern Province"),
        ("Warning_ID", JValue.str wid0)],
      JValue.obj
       [("Actor", JValue.str "Royal Saudi Military"),
        ("City", JValue.str "Al ‘Awāmīyah"),
        ("Country", JValue.str "Saudi Arabia"),
        ("Event_Date", JValue.str "2019-08-24"),
        ("Event_Subtype", JValue.str "Conflict"),
        ("Event_Type", JValue.str "Military Activity"),
        ("Latitude", JValue.num 26.5936),
        ("Longitude", JValue.num 49.9875),
        ("State", JValue.str "Eastern Province"),
        ("Warning_ID", JValue.str wid1)]])]

/-- The notebook's printed output exactly as shown, with its two concrete
`Warning_ID` strings. -/
def notebookPrintedSubmission : List (String × JValue) :=
  printedShape ("testuser" ++ sample_hex_0) ("testuser" ++ sample_hex_1)

/-- Whether an optional field value is the result marker of an intake
reply: the string "ok" or the string "error". -/
def isResultField : Option JValue → Bool
  | some (JValue.str s) => s == "ok" || s == "error"
  | _ => false

/-- Whether an optional field value is a reason: a string or null. -/
def isReasonField : Option JValue → Bool
  | some (JValue.str _) => true
  | some JValue.nul => true
  | _ => false

/-- Whether an optional field value is an integer counter: a JSON number
with denominator one. -/
def isIntCounter : Option JValue → Bool
  | some (JValue.num q) => q.den == 1
  | _ => false

/-- Modelled from the spec: the response contract of the remote intake
endpoint, whose server code is not part of this repository. A reply is a
JSON object with a `result` field that is "ok" or "error", a `reason` field
that is a string or null, and integer counters for total operations,
inserted, updated, and invalid warning records (the counter keys as they
appear in the notebook's transcribed replies). -/
def isIntakeReply (j : JValue) : Bool :=
  match j with
  | JValue.obj fs =>
      isResultField (List.lookup "result" fs) &&
      isReasonField (List.lookup "reason" fs) &&
      isIntCounter (List.lookup "Total operations" fs) &&
      isIntCounter (List.lookup "New warnings or versions inserted" fs) &&
      isIntCounter (List.lookup "Existing warnings updated" fs) &&
      isIntCounter (List.lookup "Invalid warnings" fs)
  | _ => false

/-- Every intake reply the notebook transcribes: the printed reply of the
executed run, the sample success reply, and the five sample error replies,
each copied field for field in its displayed order. -/
def documentedReplies : List JValue :=
  [JValue.obj
     [("Existing warnings updated", JValue.num 0),
      ("Invalid warnings", JValue.num 0),
      ("New warnings or versions inserted", JValue.num 2),
      ("Total operations", JValue.num 2),
      ("reason", JValue.nul),
      ("result", JValue.str "ok")],
   JValue.obj
     [("New warnings or versions inserted", JValue.num 31),
      ("reason", JValue.nul),
      ("Total operations", JValue.num 31),
      ("Existing warnings updated", JValue.num 0),
      ("Invalid warnings", JValue.num 0),
      ("result", JValue.str "ok")],
   JValue.obj
     [("New warnings or versions inserted", JValue.num 0),
      ("reason", JValue.str
        "Payload item 1: Cannot update \"Country\" for \"Military Activity\" events"),
      ("Total operations", JValue.num 1),
      ("Existing warnings updated", JValue.num 0),
      ("Invalid warnings", JValue.num 1),
      ("result", JValue.str "error")],
   JValue.obj
     [("New warnings or versions inserted", JValue.num 0),
      ("reason", JValue.str
        "Payload item 1: Unknown event type \"Not a Mercury Event Type\""),
      ("Total operations", JValue.num 1),
      ("Existing warnings updated", JValue.num 0),
      ("Invalid warnings", JValue.num 1),
      ("result", JValue.str "error")],
   JValue.obj
     [("New warnings or versions inserted", JValue.num 0),
      ("reason", JValue.str "Payload item 4: Missing attribute \"Disease\""),
      ("Total operations", JValue.num 4),
      ("Existing warnings updated", JValue.num 0),
      ("Invalid warnings", JValue.num 4),
      ("result", JValue.str "error")],
   JValue.obj
     [("New warnings or versions inserted", JValue.num 3),
      ("reason", JValue.str
        "Payload item 1: Existing warnings can only be modified every 4 hours"),
      ("Total operations", JValue.num 4),
      ("Existing warnings updated", JValue.num 0),
      ("Invalid warnings", JValue.num 1),
      ("result", JValue.str "error")],
   JValue.obj
     [("New warnings or versions inserted", JValue.num 0),
      ("reason", JValue.str
        "Payload item 5: Value not in valid range for \"Case_Count\""),
      ("Total operations", JValue.num 5),
      ("Existing warnings updated", JValue.num 0),
      ("Invalid warnings", JValue.num 5),
      ("result", JValue.str "error")]]

/-- C1: the submission dictionary has exactly the two top-level keys
`participant_id` and `payload`, in that order: `participant_id` is bound to
the userid string and `payload` to the ordered two-element list of the two
warning records. -/
theorem C1_submission_envelope (u t0 t1 : String) :
    submission u t0 t1 =
      [("participant_id", JValue.str u),
       ("payload", JValue.arr [JValue.obj (warn_content_0 u t0),
                               JValue.obj (warn_content_1 u t1)])] := rfl

/-- C2: for every userid and every random hex token, each generated warning
identifier is exactly the userid with the hex token appended, and that is
the string stored in the `Warning_ID` field of the corresponding record. -/
theorem C2_warning_id_concatenation (u t0 t1 : String) :
    warn_id_0 u t0 = u ++ t0 ∧ warn_id_1 u t1 = u ++ t1 ∧
    List.lookup "Warning_ID" (warn_content_0 u t0) =
      some (JValue.str (u ++ t0)) ∧
    List.lookup "Warning_ID" (warn_content_1 u t1) =
      some (JValue.str (u ++ t1)) :=
  ⟨rfl, rfl, rfl, rfl⟩

/-- C3: every warning record of the submission's payload is a flat
(non-nested) object whose fields include the actor, the location fields
(City, State, Country, Latitude, Longitude), the event date, the event type
and subtype, and the generated identifier. -/
theorem C3_payload_records_flat (u t0 t1 : String) :
    (payloadOf (submission u t0 t1)).all
      (fun w => isFlatObj w && requiredWarnKeys.all (fun k => hasKey w k)) =
      true := rfl

/-- C4: the issued request is a POST to the fixed intake URL, its headers
carry `Content-Type: application/json` and `x-api-key` bound to the
participant id and token joined by a colon, and its body is the submission
object. -/
theorem C4_request_shape (u s t0 t1 : String) :
    (scriptRequest u s t0 t1).method = "POST" ∧
    (scriptRequest u s t0 t1).url =
      "https://87g554i96c.execute-api.us-east-1.amazonaws.com/Production/warning/intake" ∧
    ("Content-Type", "application/json") ∈
      (scriptRequest u s t0 t1).headerList ∧
    ("x-api-key", u ++ ":" ++ s) ∈ (scriptRequest u s t0 t1).headerList ∧
    (scriptRequest u s t0 t1).body = JValue.obj (submission u t0 t1) :=
  ⟨rfl, rfl, List.Mem.tail _ (List.Mem.head _), List.Mem.head _, rfl⟩

/-- C5: for all inputs the script's effect trace is the same fixed
three-event straight line; it contains exactly one HTTP POST (the
submission request) and its final event prints the parsed response. -/
theorem C5_single_post_then_print (u s t0 t1 : String) (resp : JValue) :
    (scriptTrace u s t0 t1 resp).countP isPostEvent = 1 ∧
    (scriptTrace u s t0 t1 resp).filter isPostEvent =
      [Event.post (scriptRequest u s t0 t1)] ∧
    (scriptTrace u s t0 t1 resp).getLast? = some (Event.print resp) ∧
    (scriptTrace u s t0 t1 resp).length = 3 :=
  ⟨rfl, rfl, rfl, rfl⟩

/-- C6: with dictionary keys displayed in sorted order as `pprint` does, the
submission built from the notebook's literals matches the printed output
shape for every pair of hex tokens, the only non-literal parts being the two
`Warning_ID` strings; at the hex tokens of the recorded run it equals the
printed output exactly. -/
theorem C6_printed_structure :
    (∀ h0 h1 : String,
      pprintView (submission userid h0 h1) =
        printedShape (warn_id_0 userid h0) (warn_id_1 userid h1)) ∧
    pprintView (submission userid sample_hex_0 sample_hex_1) =
      notebookPrintedSubmission :=
  ⟨fun _ _ => rfl, rfl⟩

/-- C7: every intake reply transcribed in the notebook is a JSON object with
a `result` field that is "ok" or "error", a `reason` field that is a string
or null, and integer counters for total operations, inserted, updated, and
invalid warning records. -/
theorem C7_documented_replies_wellformed :
    documentedReplies.all isIntakeReply = true := rfl

/-- C8: the submission's `participant_id` field holds the userid, and the
`Warning_ID` of each payload record is the userid followed by some
remainder string, so every identifier begins with the participant id. -/
theorem C8_ids_carry_participant (u t0 t1 : String) :
    List.lookup "participant_id" (submission u t0 t1) =
      some (JValue.str u) ∧
    ∃ r0 r1 : String,
      (payloadOf (submission u t0 t1)).map
          (fun w => List.lookup "Warning_ID" (fieldsOf w)) =
        [some (JValue.str (u ++ r0)), some (JValue.str (u ++ r1))] :=
  ⟨rfl, t0, t1, rfl⟩

/-- C9: two runs differing only in the secret token issue requests with the
same body (the submission dictionary), method, and URL, and the same headers
outside `x-api-key`; the token reaches only the `x-api-key` header value. -/
theorem C9_secret_token_only_header (u s s₂ t0 t1 : String) :
    (scriptRequest u s t0 t1).body = (scriptRequest u s₂ t0 t1).body ∧
    (scriptRequest u s t0 t1).method = (scriptRequest u s₂ t0 t1).method ∧
    (scriptRequest u s t0 t1).url = (scriptRequest u s₂ t0 t1).url ∧
    (scriptRequest u s t0 t1).headerList.filter
        (fun p => p.1 != "x-api-key") =
      (scriptRequest u s₂ t0 t1).headerList.filter
        (fun p => p.1 != "x-api-key") ∧
    List.lookup "x-api-key" (scriptRequest u s t0 t1).headerList =
      some (apiKeyValue u s) :=
  ⟨rfl, rfl, rfl, rfl, rfl⟩

/-- C10: whenever the two random hex tokens differ, the two generated
warning identifiers are distinct strings. -/
theorem C10_distinct_hex_distinct_ids (u t0 t1 : String) (h : t0 ≠ t1) :
    warn_id_0 u t0 ≠ warn_id_1 u t1 := by
  intro he
  apply h
  have hd : (u ++ t0).data = (u ++ t1).data := congrArg String.data he
  rw [String.data_append, String.data_append] at hd
  exact String.ext (List.append_cancel_left hd)

/-- Witness for C10 at concrete distinct tokens. -/
theorem C10_distinct_hex_distinct_ids_witness :
    warn_id_0 "testuser" "0a" ≠ warn_id_1 "testuser" "1b" :=
  C10_distinct_hex_distinct_ids "testuser" "0a" "1b" (by decide)
